import Mathlib

/-!
Shallow embedding of the microservices repository's core logic:
the per-method circuit breaker, the service-discovery registry server,
and the service-discovery clients (TypeScript and legacy JavaScript).
Timestamps are modelled as `Int` milliseconds; the wrapped operation of a
breaker is modelled by its observable behavior on the given arguments
(success with a value, or failure with an error message).
-/

namespace Micro

/-! ## Circuit breaker (src/packages/circuit-breaker/index.ts) -/

/-- Configuration of one circuit breaker (circuit-breaker.types.ts). -/
structure CircuitBreakerConfig where
  maximumFailuresAllowed : Nat
  timeWindowInMilliseconds : Int
  resetTimeoutInMilliseconds : Int
deriving DecidableEq, Repr

/-- Mutable state of `SingleMethodCircuitBreaker`: the open flag, the
failure timestamps kept within the sliding window, and the earliest time a
recovery attempt is allowed. -/
structure BreakerState where
  isCircuitCurrentlyOpen : Bool
  failureTimestampsWithinWindow : List Int
  nextAllowedAttemptTime : Int
deriving DecidableEq, Repr

/-- Observable behavior of the wrapped original method on one call:
it either resolves with a value or rejects with an error message. -/
inductive CallBehavior (ρ : Type) where
  | succeeds (v : ρ)
  | fails (errorMessage : String)
deriving DecidableEq, Repr

/-- What a breaker-wrapped call does for its caller: return a value
normally, or let an exception escape (only a fallback can throw, since
the original method's errors are always caught). -/
inductive BreakerOutcome (ρ : Type) where
  | value (v : ρ)
  | thrown (message : String)
deriving DecidableEq, Repr

/-- `removeOldFailureRecords`: drop recorded failures at or before
`currentTimestamp - timeWindowInMilliseconds` (the source keeps strictly
greater timestamps). -/
def removeOldFailureRecords (configuration : CircuitBreakerConfig)
    (state : BreakerState) (currentTimestamp : Int) : BreakerState :=
  { state with
    failureTimestampsWithinWindow :=
      state.failureTimestampsWithinWindow.filter
        (fun timestamp =>
          decide (currentTimestamp - configuration.timeWindowInMilliseconds < timestamp)) }

/-- `shouldOpenCircuit`: a closed circuit opens when the in-window failure
count reaches `maximumFailuresAllowed`. -/
def shouldOpenCircuit (configuration : CircuitBreakerConfig)
    (state : BreakerState) : Bool :=
  !state.isCircuitCurrentlyOpen &&
    decide (configuration.maximumFailuresAllowed ≤
      state.failureTimestampsWithinWindow.length)

/-- `openCircuitAndSetResetTime`. -/
def openCircuitAndSetResetTime (configuration : CircuitBreakerConfig)
    (state : BreakerState) (currentTimestamp : Int) : BreakerState :=
  { state with
    isCircuitCurrentlyOpen := true
    nextAllowedAttemptTime :=
      currentTimestamp + configuration.resetTimeoutInMilliseconds }

/-- `shouldAttemptRecovery`: an open circuit becomes eligible for a
half-open trial once `currentTimestamp ≥ nextAllowedAttemptTime`. -/
def shouldAttemptRecovery (state : BreakerState) (currentTimestamp : Int) : Bool :=
  state.isCircuitCurrentlyOpen && decide (state.nextAllowedAttemptTime ≤ currentTimestamp)

/-- `setCircuitToHalfOpen`: clears the open flag so one trial call goes through. -/
def setCircuitToHalfOpen (state : BreakerState) : BreakerState :=
  { state with isCircuitCurrentlyOpen := false }

/-- `closeCircuit`: clears the failure history. -/
def closeCircuit (state : BreakerState) : BreakerState :=
  { state with failureTimestampsWithinWindow := [] }

/-- `handleFailedExecution`: push the failing call's timestamp. -/
def handleFailedExecution (state : BreakerState) (currentTimestamp : Int) : BreakerState :=
  { state with
    failureTimestampsWithinWindow :=
      state.failureTimestampsWithinWindow ++ [currentTimestamp] }

/-- The three state adjustments `executeWithCircuitBreaker` performs before
deciding whether to use the fallback: prune old failures, open the circuit
if the threshold is reached, move to half-open if the reset timeout elapsed. -/
def preCallState (configuration : CircuitBreakerConfig)
    (state : BreakerState) (currentTimestamp : Int) : BreakerState :=
  let pruned := removeOldFailureRecords configuration state currentTimestamp
  let opened :=
    if shouldOpenCircuit configuration pruned then
      openCircuitAndSetResetTime configuration pruned currentTimestamp
    else pruned
  if shouldAttemptRecovery opened currentTimestamp then
    setCircuitToHalfOpen opened
  else opened

/-- Result of one breaker-wrapped call: the new breaker state, the outcome
seen by the caller, and whether the original method was invoked. -/
structure ExecResult (ρ : Type) where
  state : BreakerState
  outcome : BreakerOutcome ρ
  attemptedRealOperation : Bool
deriving DecidableEq, Repr

/-- `executeWithCircuitBreaker`: prune/open/half-open checks, then either
short-circuit to the fallback (circuit open) or run the original method,
closing the circuit on success and recording the failure (then calling the
fallback) on error. -/
def executeWithCircuitBreaker {α ρ : Type} (configuration : CircuitBreakerConfig)
    (fallbackMethodToCall : α → BreakerOutcome ρ)
    (state : BreakerState) (currentTimestamp : Int)
    (originalMethodToExecute : α → CallBehavior ρ)
    (methodArguments : α) : ExecResult ρ :=
  let checked := preCallState configuration state currentTimestamp
  if checked.isCircuitCurrentlyOpen then
    { state := checked
      outcome := fallbackMethodToCall methodArguments
      attemptedRealOperation := false }
  else
    match originalMethodToExecute methodArguments with
    | .succeeds v =>
      { state := closeCircuit checked
        outcome := .value v
        attemptedRealOperation := true }
    | .fails _ =>
      { state := handleFailedExecution checked currentTimestamp
        outcome := fallbackMethodToCall methodArguments
        attemptedRealOperation := true }

/-- Fresh breaker state (the field defaults of `SingleMethodCircuitBreaker`). -/
def initialBreaker : BreakerState :=
  { isCircuitCurrentlyOpen := false
    failureTimestampsWithinWindow := []
    nextAllowedAttemptTime := 0 }

/-- `getCurrentStatus().currentFailureCount`. -/
def currentFailureCount (state : BreakerState) : Nat :=
  state.failureTimestampsWithinWindow.length

/-- The error message thrown by `createCircuitBreakerMethod`'s default
fallback when no fallback was configured. -/
def serviceUnavailableMessage : String :=
  "Service unavailable and no fallback method configured"

/-- `defaultConfiguration` of `createCircuitBreakerMethod`. -/
def defaultConfiguration : CircuitBreakerConfig :=
  { maximumFailuresAllowed := 3
    timeWindowInMilliseconds := 10000
    resetTimeoutInMilliseconds := 5000 }

/-- `finalFallback` of `createCircuitBreakerMethod`: the configured fallback
(returning its value), or the default fallback which throws a generic
service-unavailable error. -/
def effectiveFallback {α ρ : Type} (fallbackMethod : Option (α → ρ)) :
    α → BreakerOutcome ρ :=
  match fallbackMethod with
  | some f => fun args => .value (f args)
  | none => fun _ => .thrown serviceUnavailableMessage

/-- Run a sequence of timed calls (each with the behavior the wrapped
method exhibits at that time) through one breaker, returning the final state. -/
def runCalls {α ρ : Type} (configuration : CircuitBreakerConfig)
    (fallbackMethodToCall : α → BreakerOutcome ρ) (methodArguments : α)
    (state : BreakerState) :
    List (Int × (α → CallBehavior ρ)) → BreakerState
  | [] => state
  | (t, op) :: rest =>
    runCalls configuration fallbackMethodToCall methodArguments
      (executeWithCircuitBreaker configuration fallbackMethodToCall state t
        op methodArguments).state rest

/-- The breaker configuration used in the spec's worked example. -/
def exampleConfig : CircuitBreakerConfig :=
  { maximumFailuresAllowed := 3
    timeWindowInMilliseconds := 10000
    resetTimeoutInMilliseconds := 5000 }

/-- An operation behavior that always fails. -/
def alwaysFails {α : Type} : α → CallBehavior Nat :=
  fun _ => .fails "boom"

/-- An operation behavior that always succeeds with 7. -/
def alwaysSucceeds {α : Type} : α → CallBehavior Nat :=
  fun _ => .succeeds 7

/-- A concrete fallback used in scenarios: adds 100 to its argument. -/
def exampleFallback : Nat → BreakerOutcome Nat :=
  fun n => .value (n + 100)

/-! ## Insertion-ordered string-keyed maps (JavaScript `Map` semantics) -/

/-- `Map.get`: first value stored under the key. -/
def getMapEntry {α : Type} (key : String) : List (String × α) → Option α
  | [] => none
  | (k, v) :: rest => if k = key then some v else getMapEntry key rest

/-- `Map.set`: overwrite in place if the key is present, else append. -/
def setMapEntry {α : Type} (key : String) (value : α) :
    List (String × α) → List (String × α)
  | [] => [(key, value)]
  | (k, v) :: rest =>
    if k = key then (key, value) :: rest else (k, v) :: setMapEntry key value rest

/-- `Map.delete`: remove the entry (first occurrence) under the key. -/
def deleteMapEntry {α : Type} (key : String) : List (String × α) → List (String × α)
  | [] => []
  | (k, v) :: rest =>
    if k = key then rest else (k, v) :: deleteMapEntry key rest

/-- `Map.values` as a list. -/
def mapValues {α : Type} (m : List (String × α)) : List α :=
  m.map (·.2)

/-! ## Service-discovery registry server (server index.ts / index.js) -/

/-- One registered service instance as stored by the registry server. -/
structure ServiceInstance where
  id : String
  name : String
  ip : String
  port : Nat
  heartbeatInterval : Nat
  registeredAt : Int
  lastHeartbeat : Int
deriving DecidableEq, Repr

/-- Instances of one service name, keyed by instance id (a JS `Map`). -/
abbrev ServiceGroup := List (String × ServiceInstance)

/-- The whole store: service name → group of instances. -/
abbrev ServicesMap := List (String × ServiceGroup)

/-- `createServiceId(name, ip, port)` = `"{name}-{ip}-{port}"`. -/
def createServiceId (name ip : String) (port : Nat) : String :=
  name ++ "-" ++ ip ++ "-" ++ toString port

/-- `isServiceAlive`: the time since the last heartbeat must not exceed the
nominal interval plus a 50% grace period. The source computes
`heartbeatInterval * 1000 * 0.5`, which is exactly `heartbeatInterval * 500`
for the integer intervals the server stores. -/
def isServiceAlive (now : Int) (service : ServiceInstance) : Bool :=
  let timeSinceLastHeartbeat := now - service.lastHeartbeat
  let graceTime : Int := service.heartbeatInterval * 500
  let maxAllowedTime : Int := service.heartbeatInterval * 1000 + graceTime
  decide (timeSinceLastHeartbeat ≤ maxAllowedTime)

/-- Response of `POST /register`. -/
structure RegisterResponse where
  id : String
  heartbeatInterval : Nat
  registeredAt : Int
deriving DecidableEq, Repr

/-- Response of `POST /heartbeat`. -/
structure HeartbeatResponse where
  ok : Bool
  lastHeartbeat : Int
  nextHeartbeatIn : Nat
deriving DecidableEq, Repr

/-- `POST /register` handler: validate name/port (JS falsiness: empty name
or port 0 is rejected with a 400), upsert the instance keyed by the
deterministic id with a fresh `lastHeartbeat`, echo the interval back. -/
def registerHandler (services : ServicesMap) (name ip : String)
    (port heartbeatInterval : Nat) (now : Int) :
    Except String (ServicesMap × RegisterResponse) :=
  if name = "" ∨ port = 0 then
    .error "Name and port are required"
  else
    let id := createServiceId name ip port
    let serviceGroup := (getMapEntry name services).getD []
    let instance_ : ServiceInstance :=
      { id := id, name := name, ip := ip, port := port
        heartbeatInterval := heartbeatInterval
        registeredAt := now, lastHeartbeat := now }
    .ok (setMapEntry name (setMapEntry id instance_ serviceGroup) services,
      { id := id, heartbeatInterval := heartbeatInterval, registeredAt := now })

/-- `POST /heartbeat` handler: validate, implicitly create the instance if
unknown, then update only `lastHeartbeat`, answering with the *stored*
interval. -/
def heartbeatHandler (services : ServicesMap) (name ip : String)
    (port heartbeatInterval : Nat) (now : Int) :
    Except String (ServicesMap × HeartbeatResponse) :=
  if name = "" ∨ port = 0 then
    .error "Name and port are required"
  else
    let id := createServiceId name ip port
    let serviceGroup := (getMapEntry name services).getD []
    let serviceGroup :=
      if (getMapEntry id serviceGroup).isSome then serviceGroup
      else
        setMapEntry id
          { id := id, name := name, ip := ip, port := port
            heartbeatInterval := heartbeatInterval
            registeredAt := now, lastHeartbeat := now } serviceGroup
    match getMapEntry id serviceGroup with
    | none => .error "unreachable"
    | some service =>
      let updated := { service with lastHeartbeat := now }
      .ok (setMapEntry name (setMapEntry id updated serviceGroup) services,
        { ok := true, lastHeartbeat := now, nextHeartbeatIn := service.heartbeatInterval })

/-- `GET /services/:name` handler: empty list for an unknown name, else the
stored instances that pass the liveness predicate. -/
def discoverHandler (services : ServicesMap) (name : String) (now : Int) :
    List ServiceInstance :=
  match getMapEntry name services with
  | none => []
  | some serviceGroup => (mapValues serviceGroup).filter (isServiceAlive now)

/-! ## Service-discovery client (client.ts and legacy client.js) -/

/-- Client options (client.ts constructor defaults: interval 30s,
cache multiplier 2, request timeout 5000ms). -/
structure ClientOptions where
  defaultHeartbeatInterval : Nat
  cacheMultiplier : Nat
  requestTimeout : Nat
deriving DecidableEq, Repr

/-- The defaults merged into the options in the client constructor. -/
def defaultClientOptions : ClientOptions :=
  { defaultHeartbeatInterval := 30, cacheMultiplier := 2, requestTimeout := 5000 }

/-- `currentService` stored by the client after a successful registration. -/
structure CurrentService where
  id : String
  name : String
  port : Nat
  heartbeatInterval : Nat
deriving DecidableEq, Repr

/-- The payload of a register or heartbeat request. -/
structure HeartbeatRequest where
  name : String
  port : Nat
  heartbeatInterval : Nat
deriving DecidableEq, Repr

/-- `register` (both clients): the stored `currentService` takes `id` and
`heartbeatInterval` from the server's response, name and port from the
arguments. -/
def storeCurrentService (serviceName : String) (servicePort : Nat)
    (response : RegisterResponse) : CurrentService :=
  { id := response.id
    name := serviceName
    port := servicePort
    heartbeatInterval := response.heartbeatInterval }

/-- The register request payload (both clients): the client asks for its
configured default interval. -/
def registerPayload (options : ClientOptions) (serviceName : String)
    (servicePort : Nat) : HeartbeatRequest :=
  { name := serviceName
    port := servicePort
    heartbeatInterval := options.defaultHeartbeatInterval }

/-- `_sendHeartbeat` payload of the TypeScript client (client.ts): it sends
the stored, server-confirmed interval. -/
def sendHeartbeatPayload (currentService : CurrentService) : HeartbeatRequest :=
  { name := currentService.name
    port := currentService.port
    heartbeatInterval := currentService.heartbeatInterval }

/-- `_sendHeartbeat` payload of the legacy JavaScript client
(service-discovery-client.js): it sends the client's configured default
interval, not the stored one. -/
def sendHeartbeatPayloadJs (options : ClientOptions)
    (currentService : CurrentService) : HeartbeatRequest :=
  { name := currentService.name
    port := currentService.port
    heartbeatInterval := options.defaultHeartbeatInterval }

/-- `_startHeartbeat` (both clients): the recurring timer period in
milliseconds is the stored confirmed interval times 1000. -/
def heartbeatTimerIntervalMillis (currentService : CurrentService) : Nat :=
  currentService.heartbeatInterval * 1000

/-- The send schedule started by `_startHeartbeat`, in milliseconds after
registration: one immediate send (k = 0), then one per timer period. -/
def heartbeatSendTimeMillis (currentService : CurrentService) (k : Nat) : Nat :=
  k * heartbeatTimerIntervalMillis currentService

/-- One client-side cache entry. -/
structure ServiceCacheEntry where
  services : List ServiceInstance
  cachedAt : Int
  expiresAt : Int
deriving DecidableEq, Repr

/-- The client's discovery cache: service name → cache entry. -/
abbrev ServiceCache := List (String × ServiceCacheEntry)

/-- `_getCachedServices`: the cached instance list, or `none` when the
name has never been cached (the source returns `null`). -/
def getCachedServices (cache : ServiceCache) (serviceName : String) :
    Option (List ServiceInstance) :=
  (getMapEntry serviceName cache).map (·.services)

/-- `_isCacheValid`: an entry exists and `now < expiresAt`. -/
def isCacheValid (cache : ServiceCache) (serviceName : String) (now : Int) : Bool :=
  match getMapEntry serviceName cache with
  | none => false
  | some cacheEntry => decide (now < cacheEntry.expiresAt)

/-- `_updateCache`: ignore empty lists; otherwise store the entry with
`expiresAt = now + min(heartbeatInterval) * 1000 * cacheMultiplier`. -/
def updateCache (cacheMultiplier : Nat) (cache : ServiceCache)
    (serviceName : String) (services : List ServiceInstance) (now : Int) :
    ServiceCache :=
  match services with
  | [] => cache
  | first :: rest =>
    let minHeartbeatInterval :=
      (rest.map (·.heartbeatInterval)).foldl min first.heartbeatInterval
    let cacheDuration : Int := minHeartbeatInterval * 1000 * cacheMultiplier
    setMapEntry serviceName
      { services := first :: rest, cachedAt := now, expiresAt := now + cacheDuration }
      cache

/-- `_formatUrl`: bracket IPv6 literals, leave IPv4 plain. -/
def formatUrl (ip : String) (port : Nat) : String :=
  if ip.contains ':' then
    "http://[" ++ ip ++ "]:" ++ toString port
  else
    "http://" ++ ip ++ ":" ++ toString port

/-- `_selectRandomService`: `none` models the throw on an empty list; on a
non-empty list the random index (`Math.floor(Math.random()*len)`) is
modelled by `pick % len`. -/
def selectRandomService (services : List ServiceInstance) (pick : Nat) :
    Option String :=
  match services with
  | [] => none
  | first :: rest =>
    let selected := (first :: rest).getD (pick % (first :: rest).length) first
    some (formatUrl selected.ip selected.port)

/-- The observable behavior of the registry fetch attempted by
`_fetchServices`: a successful response body, or a network/HTTP failure. -/
inductive FetchBehavior where
  | ok (services : List ServiceInstance)
  | failure (message : String)
deriving DecidableEq, Repr

/-- What a `getServiceUrl` call does for its caller. -/
inductive ResolveOutcome where
  | url (u : String)
  | noInstancesError (serviceName : String)
  | thrown (message : String)
deriving DecidableEq, Repr

/-- Result of one `getServiceUrl` call: the new cache, the outcome, and
whether the registry fetch path was invoked. -/
structure ResolveResult where
  cache : ServiceCache
  outcome : ResolveOutcome
  fetchAttempted : Bool
deriving DecidableEq, Repr

/-- The truthiness test `cachedServices && cachedServices.length > 0` of
the resolve fast path and the stale-fallback branch. -/
def hasServices : Option (List ServiceInstance) → Bool
  | none => false
  | some cached => decide (cached.length > 0)

/-- The outcome of returning `_selectRandomService(list)`: a URL, or the
throw the source performs on an empty list. -/
def selectOutcome (services : List ServiceInstance) (pick : Nat) : ResolveOutcome :=
  match selectRandomService services pick with
  | some u => .url u
  | none => .thrown "No instances available"

/-- The part of the TypeScript client's `getServiceUrl` after the
valid-cache fast path: the caught fetch attempt, the stale-cache fallback,
and the final no-instances throw. -/
def getServiceUrlAfterFetch (options : ClientOptions) (cache : ServiceCache)
    (serviceName : String) (now : Int) (fetch : FetchBehavior) (pick : Nat)
    (cachedServices : Option (List ServiceInstance)) : ResolveResult :=
  let staleFallback : ResolveResult :=
    if hasServices cachedServices then
      { cache := cache
        outcome := selectOutcome (cachedServices.getD []) pick
        fetchAttempted := true }
    else
      { cache := cache
        outcome := .noInstancesError serviceName
        fetchAttempted := true }
  match fetch with
  | .ok freshServices =>
    if freshServices.length > 0 then
      { cache := updateCache options.cacheMultiplier cache serviceName freshServices now
        outcome := selectOutcome freshServices pick
        fetchAttempted := true }
    else staleFallback
  | .failure _ => staleFallback

/-- `getServiceUrl` of the TypeScript client (client.ts): serve a valid
non-empty cache entry without fetching; otherwise fetch, caching and using
a non-empty fresh result; a fetch failure is caught and an empty or failed
fetch falls back to any non-empty (stale) cached entry; throw the
no-instances error only when the cache has nothing either. -/
def getServiceUrl (options : ClientOptions) (cache : ServiceCache)
    (serviceName : String) (now : Int) (fetch : FetchBehavior) (pick : Nat) :
    ResolveResult :=
  let cachedServices := getCachedServices cache serviceName
  if hasServices cachedServices && isCacheValid cache serviceName now then
    { cache := cache
      outcome := selectOutcome (cachedServices.getD []) pick
      fetchAttempted := false }
  else
    getServiceUrlAfterFetch options cache serviceName now fetch pick cachedServices

/-- `getServiceUrl` of the legacy JavaScript client
(service-discovery-client.js): same shape, except the fetch is *not*
wrapped in try/catch — a failed fetch propagates its error, and the stale
cache is consulted only after a successful fetch that returned zero
instances. -/
def getServiceUrlJs (options : ClientOptions) (cache : ServiceCache)
    (serviceName : String) (now : Int) (fetch : FetchBehavior) (pick : Nat) :
    ResolveResult :=
  let cachedServices := getCachedServices cache serviceName
  if hasServices cachedServices && isCacheValid cache serviceName now then
    { cache := cache
      outcome := selectOutcome (cachedServices.getD []) pick
      fetchAttempted := false }
  else
    match fetch with
    | .failure message =>
      { cache := cache, outcome := .thrown message, fetchAttempted := true }
    | .ok freshServices =>
      if freshServices.length > 0 then
        { cache := updateCache options.cacheMultiplier cache serviceName freshServices now
          outcome := selectOutcome freshServices pick
          fetchAttempted := true }
      else if hasServices cachedServices then
        { cache := cache
          outcome := selectOutcome (cachedServices.getD []) pick
          fetchAttempted := true }
      else
        { cache := cache
          outcome := .noInstancesError serviceName
          fetchAttempted := true }

/-! ## Auxiliary observers used by the theorems -/

/-- The group stored under a service name (empty when the name is absent). -/
def groupOf (services : ServicesMap) (name : String) : ServiceGroup :=
  (getMapEntry name services).getD []

/-- How many entries of an insertion-ordered map carry the given key. -/
def countKey {α : Type} (key : String) (m : List (String × α)) : Nat :=
  (m.filter (fun entry => decide (entry.1 = key))).length

/-- The state the spec's worked breaker example reaches after three failing
calls at t = 0, 1000, 2000 ms from a fresh breaker. -/
def threeFailuresState : BreakerState :=
  runCalls exampleConfig exampleFallback 5 initialBreaker
    [(0, alwaysFails), (1000, alwaysFails), (2000, alwaysFails)]

/-- An open breaker state under `exampleConfig`: three in-window failures,
reset attempt allowed from t = 7500 ms. -/
def openExampleState : BreakerState :=
  { isCircuitCurrentlyOpen := true
    failureTimestampsWithinWindow := [0, 1000, 2000]
    nextAllowedAttemptTime := 7500 }

/-- The state left by a failed half-open trial at t = 7500 ms from
`openExampleState`. -/
def afterFailedTrialState : BreakerState :=
  { isCircuitCurrentlyOpen := false
    failureTimestampsWithinWindow := [0, 1000, 2000, 7500]
    nextAllowedAttemptTime := 7500 }

/-- The state reached by two failures, a success, then two failures
(t = 0, 1000, 2000, 3000, 4000 ms) from a fresh breaker. -/
def mixedCallsState : BreakerState :=
  runCalls exampleConfig exampleFallback 5 initialBreaker
    [(0, alwaysFails), (1000, alwaysFails), (2000, alwaysSucceeds),
     (3000, alwaysFails), (4000, alwaysFails)]

/-- A concrete registered instance used by witnesses. -/
def exampleInstance : ServiceInstance :=
  { id := "svc-1.2.3.4-80", name := "svc", ip := "1.2.3.4", port := 80
    heartbeatInterval := 30, registeredAt := 0, lastHeartbeat := 0 }

/-- A concrete registry store holding `exampleInstance`. -/
def exampleStore : ServicesMap := [("svc", [("svc-1.2.3.4-80", exampleInstance)])]

/-- A concrete client cache entry: one instance, cached at t = 0,
expiring at t = 100. -/
def exampleCacheEntry : ServiceCacheEntry :=
  { services := [exampleInstance], cachedAt := 0, expiresAt := 100 }

/-- A concrete client cache holding `exampleCacheEntry` under "svc". -/
def exampleCache : ServiceCache := [("svc", exampleCacheEntry)]

/-! ## Map lemmas -/

theorem getMapEntry_setMapEntry_self {α : Type} (key : String) (value : α)
    (m : List (String × α)) :
    getMapEntry key (setMapEntry key value m) = some value := by
  induction m with
  | nil => simp [setMapEntry, getMapEntry]
  | cons head tail ih =>
    by_cases h : head.1 = key
    · simp [setMapEntry, getMapEntry, h]
    · simpa [setMapEntry, getMapEntry, h] using ih

theorem getMapEntry_setMapEntry_other {α : Type} (key other : String) (value : α)
    (m : List (String × α)) (h : other ≠ key) :
    getMapEntry other (setMapEntry key value m) = getMapEntry other m := by
  induction m with
  | nil => simp [setMapEntry, getMapEntry, h, Ne.symm h]
  | cons head tail ih =>
    by_cases hk : head.1 = key
    · simp [setMapEntry, getMapEntry, hk, h, Ne.symm h]
    · by_cases ho : head.1 = other <;>
        simp [setMapEntry, getMapEntry, hk, ho, h, Ne.symm h, ih]

theorem setMapEntry_setMapEntry_collapse {α : Type} (key : String) (v v' : α)
    (m : List (String × α)) :
    setMapEntry key v' (setMapEntry key v m) = setMapEntry key v' m := by
  induction m with
  | nil => simp [setMapEntry]
  | cons head tail ih =>
    by_cases h : head.1 = key
    · simp [setMapEntry, h]
    · simp [setMapEntry, h, ih]

theorem length_setMapEntry_congr {α : Type} (key : String) (v v' : α)
    (m : List (String × α)) :
    (setMapEntry key v m).length = (setMapEntry key v' m).length := by
  induction m with
  | nil => simp [setMapEntry]
  | cons head tail ih =>
    by_cases h : head.1 = key <;> simp [setMapEntry, h, ih]

theorem countKey_setMapEntry {α : Type} (key : String) (v : α)
    (m : List (String × α)) :
    countKey key (setMapEntry key v m) = max (countKey key m) 1 := by
  induction m with
  | nil => simp [setMapEntry, countKey]
  | cons head tail ih =>
    by_cases h : head.1 = key
    · simp [setMapEntry, countKey, h, List.filter_cons]
    · simp only [setMapEntry, h, if_neg, not_false_iff]
      simp only [countKey, List.filter_cons] at ih ⊢
      simp [h, ih]

theorem filter_values_setMapEntry_congr {α : Type} (key : String) (v v' : α)
    (p : α → Bool) (hp : p v = p v') (m : List (String × α)) :
    (((setMapEntry key v m).map (·.2)).filter p).length
      = (((setMapEntry key v' m).map (·.2)).filter p).length := by
  induction m with
  | nil =>
    simp only [setMapEntry, List.map_cons, List.map_nil, List.filter_cons, hp]
    cases p v' <;> simp
  | cons head tail ih =>
    by_cases h : head.1 = key
    · simp only [setMapEntry, h, if_pos, List.map_cons, List.filter_cons, hp]
      cases p v' <;> simp [ih]
    · simp only [setMapEntry, h, if_neg, not_false_iff, List.map_cons, List.filter_cons]
      cases p head.2 <;> simp [ih]

/-! ## Minimum-fold lemmas (for the cache-TTL invariant) -/

theorem foldl_min_le_init (l : List Nat) (a : Nat) : l.foldl min a ≤ a := by
  induction l generalizing a with
  | nil => simp
  | cons head tail ih =>
    simpa using (ih (min a head)).trans (Nat.min_le_left a head)

theorem foldl_min_le_mem (l : List Nat) (a b : Nat) (hb : b ∈ l) :
    l.foldl min a ≤ b := by
  induction l generalizing a with
  | nil => cases hb
  | cons head tail ih =>
    rcases List.mem_cons.mp hb with h | h
    · subst h
      simpa using (foldl_min_le_init tail (min a b)).trans (Nat.min_le_right a b)
    · simpa using ih (min a head) h

theorem foldl_min_mem (l : List Nat) (a : Nat) :
    l.foldl min a = a ∨ l.foldl min a ∈ l := by
  induction l generalizing a with
  | nil => simp
  | cons head tail ih =>
    rcases ih (min a head) with h | h
    · rcases Nat.le_total a head with hle | hle
      · left
        simpa [Nat.min_eq_left hle] using h
      · right
        simp only [List.foldl_cons, h]
        exact List.mem_cons.mpr (Or.inl (Nat.min_eq_right hle))
    · right
      exact List.mem_cons.mpr (Or.inr (by simpa using h))

/-! ## Circuit-breaker claims -/

/-- Claim C1: with `maxFailures = 3`, `windowMs = 10000`,
`resetTimeoutMs = 5000`, three failing calls within 2 seconds open the
circuit — concretely, after failures at t = 0, 1000, 2000 ms the 4th call
at t = 2500 ms finds the failure threshold reached, opens the circuit with
`nextAllowedAttemptTime = 7500`, and returns the fallback's result without
invoking the real operation — and, in general, every call made while the
circuit is open and before `nextAllowedAttemptTime` returns the fallback's
result for the same arguments without invoking the real operation. -/
theorem C1_open_circuit_short_circuits {α ρ : Type}
    (configuration : CircuitBreakerConfig) (fallback : α → BreakerOutcome ρ)
    (state : BreakerState) (now : Int) (op : α → CallBehavior ρ) (args : α)
    (hOpen : state.isCircuitCurrentlyOpen = true)
    (hBefore : now < state.nextAllowedAttemptTime) :
    ((executeWithCircuitBreaker configuration fallback state now op args).outcome
        = fallback args
      ∧ (executeWithCircuitBreaker configuration fallback state now op
          args).attemptedRealOperation = false)
    ∧ executeWithCircuitBreaker exampleConfig exampleFallback threeFailuresState
        2500 alwaysFails 5
      = { state := { isCircuitCurrentlyOpen := true
                     failureTimestampsWithinWindow := [0, 1000, 2000]
                     nextAllowedAttemptTime := 7500 }
          outcome := exampleFallback 5
          attemptedRealOperation := false } := by
  have hnext : decide (state.nextAllowedAttemptTime ≤ now) = false :=
    decide_eq_false (not_le.mpr hBefore)
  refine ⟨⟨?_, ?_⟩, by decide⟩ <;>
    simp [executeWithCircuitBreaker, preCallState, removeOldFailureRecords,
      shouldOpenCircuit, shouldAttemptRecovery, hOpen, hnext]

/-- Witness for C1 at `openExampleState` and t = 2500 ms. -/
theorem C1_witness :
    openExampleState.isCircuitCurrentlyOpen = true
    ∧ (2500 : Int) < openExampleState.nextAllowedAttemptTime
    ∧ (((executeWithCircuitBreaker exampleConfig exampleFallback openExampleState
          2500 alwaysFails 5).outcome = exampleFallback 5
        ∧ (executeWithCircuitBreaker exampleConfig exampleFallback openExampleState
            2500 alwaysFails 5).attemptedRealOperation = false)
      ∧ executeWithCircuitBreaker exampleConfig exampleFallback threeFailuresState
          2500 alwaysFails 5
        = { state := { isCircuitCurrentlyOpen := true
                       failureTimestampsWithinWindow := [0, 1000, 2000]
                       nextAllowedAttemptTime := 7500 }
            outcome := exampleFallback 5
            attemptedRealOperation := false }) :=
  ⟨rfl, by decide,
    C1_open_circuit_short_circuits exampleConfig exampleFallback openExampleState
      2500 alwaysFails 5 rfl (by decide)⟩

/-- Claim C2, counterexample: from `openExampleState` (open, reset allowed at
t = 7500) a half-open trial at t = 7500 whose real call fails leaves the
circuit-open flag `false` and `nextAllowedAttemptTime` unchanged at 7500 —
not re-opened with a fresh reset window at 12500 as the claim states. -/
theorem C2_counterexample :
    executeWithCircuitBreaker exampleConfig exampleFallback openExampleState 7500
      alwaysFails 5
      = { state := { isCircuitCurrentlyOpen := false
                     failureTimestampsWithinWindow := [0, 1000, 2000, 7500]
                     nextAllowedAttemptTime := 7500 }
          outcome := exampleFallback 5
          attemptedRealOperation := true } := by decide

/-- Claim C2, amended: an open breaker called at
`now ≥ nextAllowedAttemptTime` goes half-open and attempts the real call;
success leaves the circuit closed with the failure history cleared; failure
records the trial's timestamp while the open flag stays `false` and
`nextAllowedAttemptTime` stays unchanged — the circuit re-opens only at the
start of the next call (if the in-window count still reaches the threshold),
with a reset window computed from that later call's time; concretely, after
the failed trial of `C2_counterexample`, a call at t = 7600 re-opens the
circuit with `nextAllowedAttemptTime = 12600` and uses the fallback. -/
theorem C2_half_open_trial {α ρ : Type}
    (configuration : CircuitBreakerConfig) (fallback : α → BreakerOutcome ρ)
    (state : BreakerState) (now : Int) (op : α → CallBehavior ρ) (args : α)
    (hOpen : state.isCircuitCurrentlyOpen = true)
    (hDue : state.nextAllowedAttemptTime ≤ now) :
    (executeWithCircuitBreaker configuration fallback state now op
        args).attemptedRealOperation = true
    ∧ (∀ v, op args = .succeeds v →
        (executeWithCircuitBreaker configuration fallback state now op
            args).state.isCircuitCurrentlyOpen = false
        ∧ (executeWithCircuitBreaker configuration fallback state now op
            args).state.failureTimestampsWithinWindow = [])
    ∧ (∀ e, op args = .fails e →
        (executeWithCircuitBreaker configuration fallback state now op
            args).state.isCircuitCurrentlyOpen = false
        ∧ (executeWithCircuitBreaker configuration fallback state now op
            args).state.nextAllowedAttemptTime = state.nextAllowedAttemptTime
        ∧ (executeWithCircuitBreaker configuration fallback state now op
            args).state.failureTimestampsWithinWindow
          = (removeOldFailureRecords configuration state
              now).failureTimestampsWithinWindow ++ [now])
    ∧ executeWithCircuitBreaker exampleConfig exampleFallback afterFailedTrialState
        7600 alwaysSucceeds 5
      = { state := { isCircuitCurrentlyOpen := true
                     failureTimestampsWithinWindow := [0, 1000, 2000, 7500]
                     nextAllowedAttemptTime := 12600 }
          outcome := exampleFallback 5
          attemptedRealOperation := false } := by
  have hdec : decide (state.nextAllowedAttemptTime ≤ now) = true :=
    decide_eq_true hDue
  refine ⟨?_, fun v hv => ?_, fun e he => ?_, by decide⟩
  · cases hop : op args <;>
      simp [executeWithCircuitBreaker, preCallState, removeOldFailureRecords,
        shouldOpenCircuit, shouldAttemptRecovery, setCircuitToHalfOpen, hOpen,
        hdec, hop]
  · simp [executeWithCircuitBreaker, preCallState, removeOldFailureRecords,
      shouldOpenCircuit, shouldAttemptRecovery, setCircuitToHalfOpen,
      closeCircuit, hOpen, hdec, hv]
  · simp [executeWithCircuitBreaker, preCallState, removeOldFailureRecords,
      shouldOpenCircuit, shouldAttemptRecovery, setCircuitToHalfOpen,
      handleFailedExecution, hOpen, hdec, he]

/-- Witness for the amended C2 at `openExampleState`, trial at t = 7500 with
a failing real call. -/
theorem C2_half_open_trial_witness :
    openExampleState.isCircuitCurrentlyOpen = true
    ∧ openExampleState.nextAllowedAttemptTime ≤ (7500 : Int)
    ∧ ((executeWithCircuitBreaker exampleConfig exampleFallback openExampleState
          7500 alwaysFails 5).attemptedRealOperation = true
      ∧ (∀ v, alwaysFails 5 = .succeeds v →
          (executeWithCircuitBreaker exampleConfig exampleFallback openExampleState
              7500 alwaysFails 5).state.isCircuitCurrentlyOpen = false
          ∧ (executeWithCircuitBreaker exampleConfig exampleFallback openExampleState
              7500 alwaysFails 5).state.failureTimestampsWithinWindow = [])
      ∧ (∀ e, alwaysFails 5 = .fails e →
          (executeWithCircuitBreaker exampleConfig exampleFallback openExampleState
              7500 alwaysFails 5).state.isCircuitCurrentlyOpen = false
          ∧ (executeWithCircuitBreaker exampleConfig exampleFallback openExampleState
              7500 alwaysFails 5).state.nextAllowedAttemptTime
            = openExampleState.nextAllowedAttemptTime
          ∧ (executeWithCircuitBreaker exampleConfig exampleFallback openExampleState
              7500 alwaysFails 5).state.failureTimestampsWithinWindow
            = (removeOldFailureRecords exampleConfig openExampleState
                7500).failureTimestampsWithinWindow ++ [7500])
      ∧ executeWithCircuitBreaker exampleConfig exampleFallback afterFailedTrialState
          7600 alwaysSucceeds 5
        = { state := { isCircuitCurrentlyOpen := true
                       failureTimestampsWithinWindow := [0, 1000, 2000, 7500]
                       nextAllowedAttemptTime := 12600 }
            outcome := exampleFallback 5
            attemptedRealOperation := false }) :=
  ⟨rfl, by decide,
    C2_half_open_trial exampleConfig exampleFallback openExampleState 7500
      alwaysFails 5 rfl (by decide)⟩

/-- Claim C3: when the wrapped operation throws on a call that reached it
(the circuit was not open after the pre-call checks), the breaker records
the failure timestamp and returns the configured fallback applied to the
same arguments — the original error never escapes; with no fallback
configured, the default fallback throws the generic service-unavailable
error instead of the original cause. -/
theorem C3_failure_swallowed {α ρ : Type}
    (configuration : CircuitBreakerConfig) (fb : α → ρ) (state : BreakerState)
    (now : Int) (op : α → CallBehavior ρ) (args : α) (e : String)
    (hClosed : (preCallState configuration state now).isCircuitCurrentlyOpen = false)
    (hFails : op args = .fails e) :
    executeWithCircuitBreaker configuration (effectiveFallback (some fb)) state
        now op args
      = { state := handleFailedExecution (preCallState configuration state now) now
          outcome := .value (fb args)
          attemptedRealOperation := true }
    ∧ (executeWithCircuitBreaker configuration
        (effectiveFallback (none : Option (α → ρ))) state now op args).outcome
      = .thrown serviceUnavailableMessage := by
  constructor <;>
    simp [executeWithCircuitBreaker, effectiveFallback, hClosed, hFails]

/-- Witness for C3: a fresh breaker at t = 0 whose operation fails. -/
theorem C3_failure_swallowed_witness :
    (preCallState exampleConfig initialBreaker 0).isCircuitCurrentlyOpen = false
    ∧ alwaysFails (5 : Nat) = .fails "boom"
    ∧ (executeWithCircuitBreaker exampleConfig
          (effectiveFallback (some (fun n => n + 100))) initialBreaker 0
          alwaysFails 5
        = { state := handleFailedExecution (preCallState exampleConfig
              initialBreaker 0) 0
            outcome := .value 105
            attemptedRealOperation := true }
      ∧ (executeWithCircuitBreaker exampleConfig
          (effectiveFallback (none : Option (Nat → Nat))) initialBreaker 0
          alwaysFails 5).outcome = .thrown serviceUnavailableMessage) :=
  ⟨by decide, rfl,
    C3_failure_swallowed exampleConfig (fun n => n + 100) initialBreaker 0
      alwaysFails 5 "boom" (by decide) rfl⟩

/-- Claim C9: any call whose real operation completes successfully — whether
the breaker was closed or performing a half-open trial (both are exactly the
calls with the pre-call circuit-open flag `false`) — clears the entire
failure history, so the failure count afterwards is zero; concretely, with
`maxFailures = 3`, failures at t = 0, 1000, a success at t = 2000 and
failures at t = 3000, 4000 leave the circuit closed holding only the two
post-success failures, and the next call still attempts the real operation. -/
theorem C9_success_clears_failures {α ρ : Type}
    (configuration : CircuitBreakerConfig) (fallback : α → BreakerOutcome ρ)
    (state : BreakerState) (now : Int) (op : α → CallBehavior ρ) (args : α)
    (v : ρ)
    (hClosed : (preCallState configuration state now).isCircuitCurrentlyOpen = false)
    (hSucceeds : op args = .succeeds v) :
    executeWithCircuitBreaker configuration fallback state now op args
      = { state := closeCircuit (preCallState configuration state now)
          outcome := .value v
          attemptedRealOperation := true }
    ∧ currentFailureCount
        (executeWithCircuitBreaker configuration fallback state now op args).state
      = 0
    ∧ mixedCallsState
      = { isCircuitCurrentlyOpen := false
          failureTimestampsWithinWindow := [3000, 4000]
          nextAllowedAttemptTime := 0 }
    ∧ (executeWithCircuitBreaker exampleConfig exampleFallback mixedCallsState
        5000 alwaysSucceeds 5).attemptedRealOperation = true := by
  refine ⟨?_, ?_, by decide, by decide⟩ <;>
    simp [executeWithCircuitBreaker, closeCircuit, currentFailureCount,
      hClosed, hSucceeds]

/-- Witness for C9: a breaker with two in-window failures whose next call
succeeds at t = 2000. -/
theorem C9_success_clears_failures_witness :
    (preCallState exampleConfig
        { isCircuitCurrentlyOpen := false
          failureTimestampsWithinWindow := [0, 1000]
          nextAllowedAttemptTime := 0 } 2000).isCircuitCurrentlyOpen = false
    ∧ alwaysSucceeds (5 : Nat) = .succeeds 7
    ∧ (executeWithCircuitBreaker exampleConfig exampleFallback
          { isCircuitCurrentlyOpen := false
            failureTimestampsWithinWindow := [0, 1000]
            nextAllowedAttemptTime := 0 } 2000 alwaysSucceeds 5
        = { state := closeCircuit (preCallState exampleConfig
              { isCircuitCurrentlyOpen := false
                failureTimestampsWithinWindow := [0, 1000]
                nextAllowedAttemptTime := 0 } 2000)
            outcome := .value 7
            attemptedRealOperation := true }
      ∧ currentFailureCount
          (executeWithCircuitBreaker exampleConfig exampleFallback
            { isCircuitCurrentlyOpen := false
              failureTimestampsWithinWindow := [0, 1000]
              nextAllowedAttemptTime := 0 } 2000 alwaysSucceeds 5).state = 0
      ∧ mixedCallsState
        = { isCircuitCurrentlyOpen := false
            failureTimestampsWithinWindow := [3000, 4000]
            nextAllowedAttemptTime := 0 }
      ∧ (executeWithCircuitBreaker exampleConfig exampleFallback mixedCallsState
          5000 alwaysSucceeds 5).attemptedRealOperation = true) :=
  ⟨by decide, rfl,
    C9_success_clears_failures exampleConfig exampleFallback
      { isCircuitCurrentlyOpen := false
        failureTimestampsWithinWindow := [0, 1000]
        nextAllowedAttemptTime := 0 } 2000 alwaysSucceeds 5 7 (by decide) rfl⟩

/-! ## Discovery-client heartbeat claims -/

/-- Claim C5, counterexample: the legacy JavaScript client's heartbeat
payload carries the client's configured default interval (here 30), not the
server-confirmed interval (here 10) stored from the register response. -/
theorem C5_counterexample :
    (sendHeartbeatPayloadJs defaultClientOptions
        (storeCurrentService "user-service" 4000
          { id := "user-service-127.0.0.1-4000", heartbeatInterval := 10
            registeredAt := 0 })).heartbeatInterval = 30
    ∧ (storeCurrentService "user-service" 4000
        { id := "user-service-127.0.0.1-4000", heartbeatInterval := 10
          registeredAt := 0 }).heartbeatInterval = 10 :=
  ⟨rfl, rfl⟩

/-- Claim C5, amended: after registration the stored service carries the
server-confirmed interval; the TypeScript client's heartbeat payload sends
that confirmed interval, the recurring timer of both clients fires every
confirmed-interval seconds (with one immediate send at k = 0), but the
legacy JavaScript client's heartbeat payload sends the client's configured
default interval instead. -/
theorem C5_confirmed_interval (options : ClientOptions) (serviceName : String)
    (servicePort : Nat) (response : RegisterResponse) :
    (sendHeartbeatPayload
        (storeCurrentService serviceName servicePort response)).heartbeatInterval
      = response.heartbeatInterval
    ∧ heartbeatTimerIntervalMillis (storeCurrentService serviceName servicePort response)
      = response.heartbeatInterval * 1000
    ∧ heartbeatSendTimeMillis (storeCurrentService serviceName servicePort response) 0
      = 0
    ∧ (∀ k, heartbeatSendTimeMillis (storeCurrentService serviceName servicePort response)
          (k + 1)
        = heartbeatSendTimeMillis (storeCurrentService serviceName servicePort response) k
          + heartbeatTimerIntervalMillis
              (storeCurrentService serviceName servicePort response))
    ∧ (sendHeartbeatPayloadJs options
        (storeCurrentService serviceName servicePort response)).heartbeatInterval
      = options.defaultHeartbeatInterval := by
  refine ⟨rfl, rfl, by simp [heartbeatSendTimeMillis], fun k => ?_, rfl⟩
  simp [heartbeatSendTimeMillis, Nat.succ_mul]

/-! ## Registry claims -/

/-- The liveness predicate in the claim's form: the 1500 factor is
`1000 * 1.5`. -/
theorem isServiceAlive_eq (now : Int) (svc : ServiceInstance) :
    isServiceAlive now svc
      = decide (now - svc.lastHeartbeat ≤ (svc.heartbeatInterval : Int) * 1500) := by
  simp only [isServiceAlive]
  rw [decide_eq_decide]
  omega

/-- Claim C6: `discover(name)` returns exactly the stored instances of
`name` whose last heartbeat is within the nominal interval plus the 50%
grace period — `now - lastHeartbeat ≤ heartbeatInterval * 1500` ms, i.e.
`heartbeatInterval * 1000 * 1.5` — and a name absent from the store yields
the empty list rather than an error. -/
theorem C6_discover_alive (services : ServicesMap) (name : String) (now : Int) :
    discoverHandler services name now
      = (mapValues (groupOf services name)).filter
          (fun svc => decide (now - svc.lastHeartbeat ≤ (svc.heartbeatInterval : Int) * 1500))
    ∧ (getMapEntry name services = none → discoverHandler services name now = []) := by
  constructor
  · cases h : getMapEntry name services with
    | none => simp [discoverHandler, groupOf, h, mapValues]
    | some g =>
      simp only [discoverHandler, groupOf, h, Option.getD]
      exact List.filter_congr (fun svc _ => isServiceAlive_eq now svc)
  · intro h
    simp [discoverHandler, h]

/-- Witness for C6: an unknown name resolves to the empty list. -/
theorem C6_witness : discoverHandler [] "svc" 0 = [] :=
  (C6_discover_alive [] "svc" 0).2 rfl

/-- Claim C10: a heartbeat for an instance already in the store changes only
that instance's `lastHeartbeat` — its id, name, ip, port,
`heartbeatInterval` and `registeredAt` are untouched even when the request
carries a different interval — the response's `nextHeartbeatIn` is the
stored interval, and no other instance or service group is affected. -/
theorem C10_heartbeat_frame (services : ServicesMap) (name ip : String)
    (port hbRequest : Nat) (now : Int) (inst : ServiceInstance)
    (hName : name ≠ "") (hPort : port ≠ 0)
    (hFound : getMapEntry (createServiceId name ip port) (groupOf services name)
      = some inst) :
    heartbeatHandler services name ip port hbRequest now
      = .ok (setMapEntry name
          (setMapEntry (createServiceId name ip port)
            { inst with lastHeartbeat := now } (groupOf services name)) services,
        { ok := true, lastHeartbeat := now, nextHeartbeatIn := inst.heartbeatInterval })
    ∧ getMapEntry (createServiceId name ip port)
        (groupOf (setMapEntry name
          (setMapEntry (createServiceId name ip port)
            { inst with lastHeartbeat := now } (groupOf services name)) services) name)
      = some { inst with lastHeartbeat := now }
    ∧ (∀ k, k ≠ createServiceId name ip port →
        getMapEntry k
          (setMapEntry (createServiceId name ip port)
            { inst with lastHeartbeat := now } (groupOf services name))
        = getMapEntry k (groupOf services name))
    ∧ (∀ n, n ≠ name →
        getMapEntry n
          (setMapEntry name
            (setMapEntry (createServiceId name ip port)
              { inst with lastHeartbeat := now } (groupOf services name)) services)
        = getMapEntry n services) := by
  refine ⟨?_, ?_, ?_, ?_⟩
  · simp only [heartbeatHandler, groupOf] at hFound ⊢
    rw [if_neg (by simp [hName, hPort])]
    simp [hFound, Option.isSome]
  · rw [groupOf, getMapEntry_setMapEntry_self, Option.getD,
      getMapEntry_setMapEntry_self]
  · intro k hk
    exact getMapEntry_setMapEntry_other _ k _ _ hk
  · intro n hn
    exact getMapEntry_setMapEntry_other _ n _ _ hn

/-- Witness for C10: a heartbeat at t = 1000 carrying interval 99 for
`exampleInstance` (stored interval 30) updates only `lastHeartbeat` and
answers with the stored interval. -/
theorem C10_heartbeat_frame_witness :
    ("svc" : String) ≠ ""
    ∧ (80 : Nat) ≠ 0
    ∧ getMapEntry (createServiceId "svc" "1.2.3.4" 80) (groupOf exampleStore "svc")
      = some exampleInstance
    ∧ heartbeatHandler exampleStore "svc" "1.2.3.4" 80 99 1000
      = .ok (setMapEntry "svc"
          (setMapEntry (createServiceId "svc" "1.2.3.4" 80)
            { exampleInstance with lastHeartbeat := 1000 } (groupOf exampleStore "svc"))
          exampleStore,
        { ok := true, lastHeartbeat := 1000, nextHeartbeatIn := 30 }) :=
  ⟨by decide, by decide, by decide,
    (C10_heartbeat_frame exampleStore "svc" "1.2.3.4" 80 99 1000 exampleInstance
      (by decide) (by decide) (by decide)).1⟩

/-- Claim C8: registering the same `(name, ip, port)` triple twice stores a
single entry under the deterministic id `"{name}-{ip}-{port}"` — the second
registration overwrites in place (same group length, the id occurs exactly
once, the stored entry is the second registration's record) and
`discover(name)` returns as many instances after the re-registration as
before it (both registrations being alive at the query time `t`). -/
theorem C8_register_idempotent (services : ServicesMap) (name ip : String)
    (port hb hb' : Nat) (now now' t : Int)
    (hName : name ≠ "") (hPort : port ≠ 0)
    (hCount : countKey (createServiceId name ip port) (groupOf services name) ≤ 1)
    (hAlive : t - now ≤ (hb : Int) * 1500) (hAlive' : t - now' ≤ (hb' : Int) * 1500) :
    registerHandler services name ip port hb now
      = .ok (setMapEntry name
          (setMapEntry (createServiceId name ip port)
            { id := createServiceId name ip port, name := name, ip := ip
              port := port, heartbeatInterval := hb
              registeredAt := now, lastHeartbeat := now }
            (groupOf services name)) services,
        { id := createServiceId name ip port, heartbeatInterval := hb
          registeredAt := now })
    ∧ registerHandler
        (setMapEntry name
          (setMapEntry (createServiceId name ip port)
            { id := createServiceId name ip port, name := name, ip := ip
              port := port, heartbeatInterval := hb
              registeredAt := now, lastHeartbeat := now }
            (groupOf services name)) services) name ip port hb' now'
      = .ok (setMapEntry name
          (setMapEntry (createServiceId name ip port)
            { id := createServiceId name ip port, name := name, ip := ip
              port := port, heartbeatInterval := hb'
              registeredAt := now', lastHeartbeat := now' }
            (setMapEntry (createServiceId name ip port)
              { id := createServiceId name ip port, name := name, ip := ip
                port := port, heartbeatInterval := hb
                registeredAt := now, lastHeartbeat := now }
              (groupOf services name)))
          (setMapEntry name
            (setMapEntry (createServiceId name ip port)
              { id := createServiceId name ip port, name := name, ip := ip
                port := port, heartbeatInterval := hb
                registeredAt := now, lastHeartbeat := now }
              (groupOf services name)) services),
        { id := createServiceId name ip port, heartbeatInterval := hb'
          registeredAt := now' })
    ∧ (setMapEntry (createServiceId name ip port)
          { id := createServiceId name ip port, name := name, ip := ip
            port := port, heartbeatInterval := hb'
            registeredAt := now', lastHeartbeat := now' }
          (setMapEntry (createServiceId name ip port)
            { id := createServiceId name ip port, name := name, ip := ip
              port := port, heartbeatInterval := hb
              registeredAt := now, lastHeartbeat := now }
            (groupOf services name))).length
      = (setMapEntry (createServiceId name ip port)
          { id := createServiceId name ip port, name := name, ip := ip
            port := port, heartbeatInterval := hb
            registeredAt := now, lastHeartbeat := now }
          (groupOf services name)).length
    ∧ countKey (createServiceId name ip port)
        (setMapEntry (createServiceId name ip port)
          { id := createServiceId name ip port, name := name, ip := ip
            port := port, heartbeatInterval := hb'
            registeredAt := now', lastHeartbeat := now' }
          (setMapEntry (createServiceId name ip port)
            { id := createServiceId name ip port, name := name, ip := ip
              port := port, heartbeatInterval := hb
              registeredAt := now, lastHeartbeat := now }
            (groupOf services name))) = 1
    ∧ getMapEntry (createServiceId name ip port)
        (setMapEntry (createServiceId name ip port)
          { id := createServiceId name ip port, name := name, ip := ip
            port := port, heartbeatInterval := hb'
            registeredAt := now', lastHeartbeat := now' }
          (setMapEntry (createServiceId name ip port)
            { id := createServiceId name ip port, name := name, ip := ip
              port := port, heartbeatInterval := hb
              registeredAt := now, lastHeartbeat := now }
            (groupOf services name)))
      = some
          { id := createServiceId name ip port, name := name, ip := ip
            port := port, heartbeatInterval := hb'
            registeredAt := now', lastHeartbeat := now' }
    ∧ (discoverHandler
          (setMapEntry name
            (setMapEntry (createServiceId name ip port)
              { id := createServiceId name ip port, name := name, ip := ip
                port := port, heartbeatInterval := hb'
                registeredAt := now', lastHeartbeat := now' }
              (setMapEntry (createServiceId name ip port)
                { id := createServiceId name ip port, name := name, ip := ip
                  port := port, heartbeatInterval := hb
                  registeredAt := now, lastHeartbeat := now }
                (groupOf services name)))
            (setMapEntry name
              (setMapEntry (createServiceId name ip port)
                { id := createServiceId name ip port, name := name, ip := ip
                  port := port, heartbeatInterval := hb
                  registeredAt := now, lastHeartbeat := now }
                (groupOf services name)) services)) name t).length
      = (discoverHandler
          (setMapEntry name
            (setMapEntry (createServiceId name ip port)
              { id := createServiceId name ip port, name := name, ip := ip
                port := port, heartbeatInterval := hb
                registeredAt := now, lastHeartbeat := now }
              (groupOf services name)) services) name t).length := by
  have hvalid : ¬(name = "" ∨ port = 0) := by
    rintro (h | h)
    · exact hName h
    · exact hPort h
  have halive1 : isServiceAlive t
      { id := createServiceId name ip port, name := name, ip := ip, port := port
        heartbeatInterval := hb, registeredAt := now, lastHeartbeat := now } = true := by
    rw [isServiceAlive_eq]
    simpa using hAlive
  have halive2 : isServiceAlive t
      { id := createServiceId name ip port, name := name, ip := ip, port := port
        heartbeatInterval := hb', registeredAt := now', lastHeartbeat := now' } = true := by
    rw [isServiceAlive_eq]
    simpa using hAlive'
  refine ⟨?_, ?_, ?_, ?_, ?_, ?_⟩
  · simp only [registerHandler, if_neg hvalid, groupOf]
  · simp only [registerHandler, if_neg hvalid, groupOf,
      getMapEntry_setMapEntry_self, Option.getD_some]
  · rw [setMapEntry_setMapEntry_collapse]
    exact length_setMapEntry_congr _ _ _ _
  · rw [setMapEntry_setMapEntry_collapse, countKey_setMapEntry]
    omega
  · exact getMapEntry_setMapEntry_self _ _ _
  · simp only [discoverHandler, getMapEntry_setMapEntry_self]
    rw [setMapEntry_setMapEntry_collapse]
    simp only [mapValues]
    exact filter_values_setMapEntry_congr _ _ _ (isServiceAlive t)
      (halive2.trans halive1.symm) _

/-- Witness for C8: registering `exampleInstance`'s triple twice with
intervals 30 then 10, at t = 0 then t = 1000, queried at t = 2000. -/
theorem C8_register_idempotent_witness :
    ("svc" : String) ≠ ""
    ∧ (80 : Nat) ≠ 0
    ∧ countKey (createServiceId "svc" "1.2.3.4" 80) (groupOf [] "svc") ≤ 1
    ∧ (2000 : Int) - 0 ≤ (30 : Nat) * 1500
    ∧ (2000 : Int) - 1000 ≤ (10 : Nat) * 1500
    ∧ registerHandler [] "svc" "1.2.3.4" 80 30 0
      = .ok (setMapEntry "svc"
          (setMapEntry (createServiceId "svc" "1.2.3.4" 80)
            { id := createServiceId "svc" "1.2.3.4" 80, name := "svc", ip := "1.2.3.4"
              port := 80, heartbeatInterval := 30
              registeredAt := 0, lastHeartbeat := 0 }
            (groupOf [] "svc")) [],
        { id := createServiceId "svc" "1.2.3.4" 80, heartbeatInterval := 30
          registeredAt := 0 }) :=
  ⟨by decide, by decide, by decide, by decide, by decide,
    (C8_register_idempotent [] "svc" "1.2.3.4" 80 30 10 0 1000 2000
      (by decide) (by decide) (by decide) (by decide) (by decide)).1⟩

/-! ## Discovery-client cache claims -/

/-- Selecting from a list never produces the no-instances resolve error
(an empty list makes the selection throw instead). -/
theorem selectOutcome_ne_noInstances (l : List ServiceInstance) (pick : Nat)
    (serviceName : String) :
    selectOutcome l pick ≠ .noInstancesError serviceName := by
  cases l <;> simp [selectOutcome, selectRandomService]

/-- Selecting from a non-empty list yields a URL. -/
theorem selectOutcome_url_of_nonempty (l : List ServiceInstance) (pick : Nat)
    (h : 0 < l.length) : ∃ u, selectOutcome l pick = .url u := by
  cases l with
  | nil => simp at h
  | cons a as => exact ⟨_, rfl⟩

/-- Claim C7: a successful fetch stores a cache entry whose `expiresAt`
exceeds `cachedAt` by exactly `min(heartbeatInterval) * cacheMultiplier *
1000` ms (characterised as: at most every instance's
`heartbeatInterval * cacheMultiplier * 1000`, with equality for some
instance), and any resolve strictly before the `expiresAt` of a non-empty
cached entry returns a URL without invoking the registry fetch path and
without touching the cache. -/
theorem C7_cache_ttl (options : ClientOptions) (mult : Nat)
    (cache cache2 : ServiceCache) (serviceName : String) (now now2 : Int)
    (fetch : FetchBehavior) (pick : Nat)
    (first : ServiceInstance) (rest : List ServiceInstance)
    (entry : ServiceCacheEntry)
    (hEntry : getMapEntry serviceName cache2 = some entry)
    (hNonempty : 0 < entry.services.length)
    (hFresh : now2 < entry.expiresAt) :
    (∃ e, getMapEntry serviceName
        (updateCache mult cache serviceName (first :: rest) now) = some e
      ∧ e.services = first :: rest
      ∧ e.cachedAt = now
      ∧ (∀ svc ∈ first :: rest,
          e.expiresAt ≤ e.cachedAt + (svc.heartbeatInterval : Int) * mult * 1000)
      ∧ (∃ svc ∈ first :: rest,
          e.expiresAt = e.cachedAt + (svc.heartbeatInterval : Int) * mult * 1000))
    ∧ (getServiceUrl options cache2 serviceName now2 fetch pick).fetchAttempted
      = false
    ∧ (getServiceUrl options cache2 serviceName now2 fetch pick).cache = cache2
    ∧ (∃ u, (getServiceUrl options cache2 serviceName now2 fetch pick).outcome
        = .url u) := by
  have hcs : getCachedServices cache2 serviceName = some entry.services := by
    simp [getCachedServices, hEntry]
  have hvalid : isCacheValid cache2 serviceName now2 = true := by
    simp [isCacheValid, hEntry, hFresh]
  have hhas : hasServices (some entry.services) = true := by
    simp [hasServices]
    omega
  refine ⟨?_, ?_, ?_, ?_⟩
  · simp only [updateCache]
    refine ⟨_, getMapEntry_setMapEntry_self _ _ _, rfl, rfl, ?_, ?_⟩
    · intro svc hsvc
      have hmin : (rest.map (·.heartbeatInterval)).foldl min first.heartbeatInterval
          ≤ svc.heartbeatInterval := by
        rcases List.mem_cons.mp hsvc with h | h
        · rw [h]
          exact foldl_min_le_init _ _
        · exact foldl_min_le_mem _ _ _ (List.mem_map_of_mem _ h)
      have hn : (rest.map (·.heartbeatInterval)).foldl min first.heartbeatInterval
            * 1000 * mult ≤ svc.heartbeatInterval * mult * 1000 := by
        calc (rest.map (·.heartbeatInterval)).foldl min first.heartbeatInterval
              * 1000 * mult
            ≤ svc.heartbeatInterval * 1000 * mult :=
              Nat.mul_le_mul_right _ (Nat.mul_le_mul_right _ hmin)
          _ = svc.heartbeatInterval * mult * 1000 := by ring
      simp only []
      have hi : ((rest.map (·.heartbeatInterval)).foldl min first.heartbeatInterval
            * 1000 * mult : Int) ≤ (svc.heartbeatInterval : Int) * mult * 1000 := by
        exact_mod_cast hn
      push_cast at hi ⊢
      omega
    · rcases foldl_min_mem (rest.map (·.heartbeatInterval)) first.heartbeatInterval
        with hm | hm
      · refine ⟨first, List.mem_cons_self _ _, ?_⟩
        simp only []
        rw [hm]
        ring
      · obtain ⟨svc, hsvc, heq⟩ := List.mem_map.mp hm
        refine ⟨svc, List.mem_cons_of_mem _ hsvc, ?_⟩
        simp only []
        rw [← heq]
        ring
  · simp [getServiceUrl, hcs, hvalid, hhas]
  · simp [getServiceUrl, hcs, hvalid, hhas]
  · simp only [getServiceUrl, hcs, hvalid, hhas, Bool.and_self, if_pos,
      Option.getD_some]
    exact selectOutcome_url_of_nonempty _ _ hNonempty

/-- Witness for C7: caching one instance (interval 30) with multiplier 2 at
t = 0, and resolving `exampleCache` at t = 50 before its expiry at 100. -/
theorem C7_cache_ttl_witness :
    getMapEntry "svc" exampleCache = some exampleCacheEntry
    ∧ 0 < exampleCacheEntry.services.length
    ∧ (50 : Int) < exampleCacheEntry.expiresAt
    ∧ ((getServiceUrl defaultClientOptions exampleCache "svc" 50
          (.failure "down") 0).fetchAttempted = false
      ∧ (getServiceUrl defaultClientOptions exampleCache "svc" 50
          (.failure "down") 0).cache = exampleCache
      ∧ (∃ u, (getServiceUrl defaultClientOptions exampleCache "svc" 50
          (.failure "down") 0).outcome = .url u)) :=
  ⟨by decide, by decide, by decide,
    (C7_cache_ttl defaultClientOptions 2 [] exampleCache "svc" 0 50
      (.failure "down") 0 exampleInstance [] exampleCacheEntry
      (by decide) (by decide) (by decide)).2⟩

/-- Claim C4, counterexample: the legacy JavaScript client's `getServiceUrl`
with a non-empty but expired cache entry (`exampleCache` expires at t = 100,
resolve at t = 200) and a failing fetch propagates the fetch error instead
of returning a URL from the stale entry. -/
theorem C4_counterexample :
    getServiceUrlJs defaultClientOptions exampleCache "svc" 200
      (.failure "network down") 0
      = { cache := exampleCache, outcome := .thrown "network down"
          fetchAttempted := true } := by decide

/-- Claim C4, amended: in the TypeScript client, whenever the cache holds a
non-empty entry for the name (expired or not) and the fetch fails or
returns zero instances, resolve returns a URL selected from the cached
instances instead of throwing, and the no-instances error occurs only when
no non-empty cache entry exists and the fetch failed or returned empty; the
legacy JavaScript client behaves this way only when the fetch succeeds with
zero instances — a failed fetch propagates its error (see
`C4_counterexample`). -/
theorem C4_stale_fallback (options : ClientOptions) (cache : ServiceCache)
    (serviceName : String) (now : Int) (fetch : FetchBehavior) (pick : Nat)
    (cached : List ServiceInstance)
    (hCached : getCachedServices cache serviceName = some cached)
    (hNonempty : 0 < cached.length)
    (hBad : ∀ l, fetch = .ok l → l = []) :
    (getServiceUrl options cache serviceName now fetch pick).outcome
      = selectOutcome cached pick
    ∧ (∃ u, selectOutcome cached pick = .url u)
    ∧ (∀ (cache2 : ServiceCache) (fetch2 : FetchBehavior),
        (getServiceUrl options cache2 serviceName now fetch2 pick).outcome
          = .noInstancesError serviceName →
        hasServices (getCachedServices cache2 serviceName) = false
        ∧ ∀ l, fetch2 = .ok l → l = []) := by
  have hhas : hasServices (some cached) = true := by
    simp [hasServices]
    omega
  refine ⟨?_, selectOutcome_url_of_nonempty _ _ hNonempty, ?_⟩
  · cases hvalid : isCacheValid cache serviceName now with
    | true => simp [getServiceUrl, hCached, hhas, hvalid]
    | false =>
      cases hf : fetch with
      | failure message =>
        simp [getServiceUrl, getServiceUrlAfterFetch, hCached, hhas, hvalid]
      | ok l =>
        have hl := hBad l hf
        subst hl
        simp [getServiceUrl, getServiceUrlAfterFetch, hCached, hhas, hvalid]
  · intro cache2 fetch2 hout
    cases hhs : hasServices (getCachedServices cache2 serviceName) with
    | true =>
      exfalso
      cases hvalid2 : isCacheValid cache2 serviceName now with
      | true =>
        rw [getServiceUrl] at hout
        simp only [hhs, hvalid2, Bool.and_self, if_pos] at hout
        exact selectOutcome_ne_noInstances _ _ _ hout
      | false =>
        rw [getServiceUrl] at hout
        simp only [hhs, hvalid2, Bool.and_false, Bool.false_eq_true,
          if_neg, getServiceUrlAfterFetch] at hout
        cases fetch2 with
        | failure message =>
          simp only [hhs, if_pos] at hout
          exact selectOutcome_ne_noInstances _ _ _ hout
        | ok l =>
          by_cases hlen : l.length > 0
          · simp only [hlen, if_pos] at hout
            exact selectOutcome_ne_noInstances _ _ _ hout
          · simp only [hlen, if_neg, hhs, if_pos] at hout
            exact selectOutcome_ne_noInstances _ _ _ hout
    | false =>
      refine ⟨rfl, ?_⟩
      intro l hl
      subst hl
      by_contra hne
      have hlen : 0 < l.length := List.length_pos.mpr hne
      rw [getServiceUrl] at hout
      simp only [hhs, Bool.false_and, Bool.false_eq_true, if_neg,
        getServiceUrlAfterFetch, hlen, if_pos] at hout
      exact selectOutcome_ne_noInstances _ _ _ hout

/-- Witness for the amended C4: `exampleCache` expired at t = 200 with a
failing fetch still resolves to a URL from the cached instance. -/
theorem C4_stale_fallback_witness :
    getCachedServices exampleCache "svc" = some [exampleInstance]
    ∧ 0 < ([exampleInstance] : List ServiceInstance).length
    ∧ (getServiceUrl defaultClientOptions exampleCache "svc" 200
        (.failure "network down") 0).outcome = selectOutcome [exampleInstance] 0 :=
  ⟨by decide, by decide,
    (C4_stale_fallback defaultClientOptions exampleCache "svc" 200
      (.failure "network down") 0 [exampleInstance] (by decide) (by decide)
      (fun l h => FetchBehavior.noConfusion h)).1⟩

end Micro
